import Mathlib

/-!
Verification development for the Resonance-Based Scoring (RBS) core of the
`ailove` repository: the four scoring components (SubspaceResonance,
CausalUplift, InformationGain, SafetyConstraints), the RBS orchestrator,
and the match-discovery route.

JavaScript numbers are modelled as real numbers (`ℝ`).  Where the source
checks `Number.isFinite`, the inputs are modelled as `Option ℝ` with `none`
standing for a non-finite value (`NaN`/`Infinity`); everywhere else only
finite values can flow, so plain `ℝ` is faithful.  Fallible operations
(`throw` in the source) return `Except String`.  `Math.max/min` are
`max/min`, `Math.sqrt/exp/log2/sin/cos/atan2/PI` are the corresponding real
functions.  JavaScript `Map`s are modelled as association lists (`size` is
the length; iteration order is the insertion order, matching `Map`).
Observability-only data (log strings, `flags` descriptions built with
`toFixed`, timestamps, latency measurements) is not modelled.
-/

set_option maxRecDepth 8000

noncomputable section

/-- `clamp(value, min, max) = Math.max(min, Math.min(max, value))`,
shared by every service. -/
def clamp (value lo hi : ℝ) : ℝ := max lo (min hi value)

/-- Sum of pairwise products over the common prefix of two vectors: the
`dotProduct` accumulator of the similarity loops. -/
def dotl (v1 v2 : List ℝ) : ℝ := (List.zipWith (· * ·) v1 v2).sum

/-- Sum of squares of a vector: the `magnitude` accumulator before `sqrt`. -/
def sumSq (v : List ℝ) : ℝ := (v.map (fun x => x * x)).sum

theorem sumSq_nonneg (v : List ℝ) : 0 ≤ sumSq v := by
  unfold sumSq
  induction v with
  | nil => simp
  | cons x xs ih => simpa using add_nonneg (mul_self_nonneg x) ih

theorem dotl_comm (v1 v2 : List ℝ) : dotl v1 v2 = dotl v2 v1 := by
  unfold dotl
  congr 1
  rw [List.zipWith_comm (· * ·)]
  simp [mul_comm]

theorem sumSq_replicate_zero (n : ℕ) : sumSq (List.replicate n (0 : ℝ)) = 0 := by
  simp [sumSq, List.map_replicate]

theorem sumSq_replicate_one (n : ℕ) : sumSq (List.replicate n (1 : ℝ)) = n := by
  simp [sumSq, List.map_replicate]

theorem dotl_self (v : List ℝ) : dotl v v = sumSq v := by
  unfold dotl sumSq
  induction v with
  | nil => rfl
  | cons x xs ih => simp [ih]

namespace SubspaceResonanceService

/-- `Subspace` from `rbs.types`: a named, weighted, contiguous index range.
(The source field `end` is a Lean keyword, rendered here as `stop`.) -/
structure Subspace where
  name : String
  start : ℕ
  stop : ℕ
  weight : ℝ

/-- `config.rbs.subspaces` from `src/config/index.ts`. -/
def subspaces : List Subspace :=
  [⟨"values", 0, 128, 0.30⟩,
   ⟨"interests", 128, 384, 0.25⟩,
   ⟨"communication", 384, 448, 0.20⟩,
   ⟨"lifestyle", 448, 544, 0.15⟩,
   ⟨"goals", 544, 624, 0.10⟩]

/-- `config.qdrant.vectorSize`. -/
def vectorSize : ℕ := 768

/-- `SubspaceResonanceService.cosineSimilarity`: throws on length mismatch,
returns 0 when either magnitude is zero, else the normalized dot product. -/
def cosineSimilarity (v1 v2 : List ℝ) : Except String ℝ :=
  if v1.length ≠ v2.length then .error "Vector length mismatch"
  else
    let dotProduct := dotl v1 v2
    let magnitude1 := Real.sqrt (sumSq v1)
    let magnitude2 := Real.sqrt (sumSq v2)
    if magnitude1 = 0 ∨ magnitude2 = 0 then .ok 0
    else .ok (dotProduct / (magnitude1 * magnitude2))

/-- `extractSubspace`: `embedding.slice(subspace.start, subspace.end)`. -/
def extractSubspace (embedding : List ℝ) (s : Subspace) : List ℝ :=
  (embedding.drop s.start).take (s.stop - s.start)

/-- The `for (const subspace of this.subspaces)` accumulation loop of
`calculate`: `weightedSum += subspace.weight * similarity`. -/
def resonanceSum (embedding1 embedding2 : List ℝ) :
    List Subspace → ℝ → Except String ℝ
  | [], weightedSum => .ok weightedSum
  | s :: rest, weightedSum => do
    let similarity ← cosineSimilarity (extractSubspace embedding1 s)
      (extractSubspace embedding2 s)
    resonanceSum embedding1 embedding2 rest (weightedSum + s.weight * similarity)

/-- `SubspaceResonanceService.calculate`: validate both embedding lengths,
then sum `weight · cosineSimilarity` over the configured subspaces and
clamp to `[0,1]`.  (The non-finite-element check of `validateEmbeddings`
is vacuous over `ℝ`.) -/
def calculate (embedding1 embedding2 : List ℝ) : Except String ℝ :=
  if embedding1.length ≠ vectorSize then .error "Invalid embedding1 size"
  else if embedding2.length ≠ vectorSize then .error "Invalid embedding2 size"
  else do
    let weightedSum ← resonanceSum embedding1 embedding2 subspaces 0
    pure (clamp weightedSum 0 1)

theorem cosineSimilarity_comm (v1 v2 : List ℝ) :
    cosineSimilarity v1 v2 = cosineSimilarity v2 v1 := by
  unfold cosineSimilarity
  by_cases h : v1.length = v2.length
  · simp only [h, ne_eq, not_true_eq_false, if_false, ite_not]
    rw [dotl_comm]
    by_cases hm : Real.sqrt (sumSq v2) = 0 ∨ Real.sqrt (sumSq v1) = 0
    · simp [hm, or_comm.mp hm]
    · rw [if_neg hm, if_neg (fun hc => hm (Or.symm hc))]
      rw [mul_comm]
  · have h' : v2.length ≠ v1.length := fun hc => h hc.symm
    simp [h, h']

theorem cosineSimilarity_self (v : List ℝ) (h : sumSq v ≠ 0) :
    cosineSimilarity v v = .ok 1 := by
  have hpos : 0 < sumSq v := lt_of_le_of_ne (sumSq_nonneg v) (Ne.symm h)
  have hs : Real.sqrt (sumSq v) ≠ 0 := by
    rw [ne_eq, Real.sqrt_eq_zero']
    exact not_le.mpr hpos
  unfold cosineSimilarity
  rw [if_neg (by simp), if_neg (by simp [hs])]
  rw [dotl_self, Real.mul_self_sqrt (le_of_lt hpos), div_self h]

end SubspaceResonanceService

/-- `UserTrait` from `rbs.types` (the scoring code reads only `value` and
`confidence`; `dimension`/`source` do not influence any score). -/
structure UserTrait where
  trait : String
  value : ℝ
  confidence : ℝ

/-- `UserProfile5D` from `rbs.types`: a `Map<string, UserTrait>` per
dimension, modelled as an association list keyed by the trait name. -/
structure UserProfile5D where
  userId : String
  values : List (String × UserTrait)
  interests : List (String × UserTrait)
  communication : List (String × UserTrait)
  lifestyle : List (String × UserTrait)
  goals : List (String × UserTrait)

/-- `InformationGainResult` from `rbs.types`. -/
structure InformationGainResult where
  score : ℝ
  coverage : ℝ
  avgConfidence : ℝ
  entropyReduction : ℝ

namespace InformationGainService

/-- `MIN_TRAITS_PER_DIMENSION`. -/
def MIN_TRAITS_PER_DIMENSION : ℕ := 5

/-- `TOTAL_EXPECTED_TRAITS = 5 * MIN_TRAITS_PER_DIMENSION`. -/
def TOTAL_EXPECTED_TRAITS : ℕ := 5 * MIN_TRAITS_PER_DIMENSION

/-- The `dimensions` array of `calculateSingle`. -/
def dimensions (profile : UserProfile5D) : List (List (String × UserTrait)) :=
  [profile.values, profile.interests, profile.communication,
   profile.lifestyle, profile.goals]

/-- `calculateEntropyReduction`: normalize the per-dimension coverages to a
distribution, take Shannon entropy in bits, divide by `log₂(#dimensions)`. -/
def calculateEntropyReduction (dimensionCoverages : List ℝ) : ℝ :=
  let total := dimensionCoverages.sum
  if total = 0 then 0
  else
    let entropy := (dimensionCoverages.map
      (fun coverage =>
        if coverage > 0 then -(coverage / total * Real.logb 2 (coverage / total))
        else 0)).sum
    let maxEntropy := Real.logb 2 (dimensionCoverages.length : ℝ)
    entropy / maxEntropy

/-- `calculateSingle`: coverage, average confidence, entropy reduction and
the clamped combined score for one profile. -/
def calculateSingle (profile : UserProfile5D) : InformationGainResult :=
  let dims := dimensions profile
  let totalTraits : ℕ := (dims.map List.length).sum
  let totalConfidence : ℝ :=
    (dims.map (fun d => (d.map (fun t => t.2.confidence)).sum)).sum
  let dimensionCoverages : List ℝ :=
    dims.map (fun d => min ((d.length : ℝ) / (MIN_TRAITS_PER_DIMENSION : ℝ)) 1)
  let coverage := min ((totalTraits : ℝ) / (TOTAL_EXPECTED_TRAITS : ℝ)) 1
  let avgConfidence := if 0 < totalTraits then totalConfidence / (totalTraits : ℝ) else 0
  let entropyReduction := calculateEntropyReduction dimensionCoverages
  let score := clamp ((coverage * 0.6 + avgConfidence * 0.4) * (1 + entropyReduction * 0.1)) 0 1
  ⟨score, coverage, avgConfidence, entropyReduction⟩

/-- `InformationGainService.calculate`: the mean of the two single scores. -/
def calculate (profile1 profile2 : UserProfile5D) : ℝ :=
  ((calculateSingle profile1).score + (calculateSingle profile2).score) / 2

/-- `calculateDetailed` is `calculateSingle`. -/
def calculateDetailed (profile : UserProfile5D) : InformationGainResult :=
  calculateSingle profile

/-- `Map.set(traitKey, trait)` on one dimension: replace the entry with the
key if present, else append (insertion order, as a JS `Map` does). -/
def mapSet (m : List (String × UserTrait)) (key : String) (t : UserTrait) :
    List (String × UserTrait) :=
  if (m.lookup key).isSome then
    m.map (fun p => if p.1 = key then (key, t) else p)
  else m ++ [(key, t)]

/-- Adding a trait to one dimension of a profile — the `P ∪ {T}` of the
monotonicity contract, realised with `Map.set` as `validateMonotonicity`
does. -/
def addTrait (p : UserProfile5D) (dim : String) (key : String) (t : UserTrait) :
    UserProfile5D :=
  if dim = "values" then { p with values := mapSet p.values key t }
  else if dim = "interests" then { p with interests := mapSet p.interests key t }
  else if dim = "communication" then { p with communication := mapSet p.communication key t }
  else if dim = "lifestyle" then { p with lifestyle := mapSet p.lifestyle key t }
  else { p with goals := mapSet p.goals key t }

end InformationGainService

/-- `CausalUpliftResult` from `rbs.types` (`modelVersion` is the constant
`'1.0.0'`, not modelled). -/
structure CausalUpliftResult where
  treatmentEffect : ℝ
  confidence : ℝ

namespace CausalUpliftService

/-- A JavaScript number as the causal-uplift input sees it: `none` stands
for a non-finite value (`NaN`/`±Infinity`), `some x` for a finite one. -/
abbrev JSNum : Type := Option ℝ

/-- `FEATURE_COUNT`. -/
def FEATURE_COUNT : ℕ := 20

/-- `TREATMENT_WEIGHTS`. -/
def TREATMENT_WEIGHTS : List ℝ :=
  [0.15, -0.08, 0.22, 0.11, -0.05,
   0.18, 0.09, -0.12, 0.14, 0.07,
   -0.06, 0.19, 0.13, -0.10, 0.16,
   0.08, -0.04, 0.21, 0.12, -0.07]

/-- `CONTROL_WEIGHTS`. -/
def CONTROL_WEIGHTS : List ℝ :=
  [0.10, -0.05, 0.15, 0.08, -0.03,
   0.12, 0.06, -0.08, 0.10, 0.05,
   -0.04, 0.14, 0.09, -0.07, 0.11,
   0.06, -0.03, 0.16, 0.09, -0.05]

/-- `extractFeatures`: truncate to the first 20 entries, or zero-pad up to
20 (the pad is the finite number 0). -/
def extractFeatures (features : List JSNum) : List JSNum :=
  if FEATURE_COUNT ≤ features.length then features.take FEATURE_COUNT
  else features ++ List.replicate (FEATURE_COUNT - features.length) (some (0 : ℝ))

/-- `validateFeatures`: throw on a wrong length or any non-finite entry. -/
def validateFeatures (features : List JSNum) : Except String Unit :=
  if features.length ≠ FEATURE_COUNT then .error "Invalid feature count"
  else if features.all Option.isSome then .ok () else .error "Invalid feature value"

/-- `sigmoid(x) = 1 / (1 + e^(-x))`. -/
def sigmoid (x : ℝ) : ℝ := 1 / (1 + Real.exp (-x))

/-- `predictTreatment`: dot with the treatment weights, then sigmoid. -/
def predictTreatment (features : List ℝ) : ℝ := sigmoid (dotl features TREATMENT_WEIGHTS)

/-- `predictControl`: dot with the control weights, then sigmoid. -/
def predictControl (features : List ℝ) : ℝ := sigmoid (dotl features CONTROL_WEIGHTS)

/-- `calculateConfidence`: sparsity of near-zero entries combined with
capped variance. -/
def calculateConfidence (features : List ℝ) : ℝ :=
  let nonZeroCount := (features.filter (fun f => f > 0.01)).length
  let sparsity := (nonZeroCount : ℝ) / (FEATURE_COUNT : ℝ)
  let mean := features.sum / (FEATURE_COUNT : ℝ)
  let variance := (features.map (fun f => (f - mean) ^ 2)).sum / (FEATURE_COUNT : ℝ)
  clamp (sparsity * 0.6 + min variance 0.5 * 0.4 / 0.5) 0 1

/-- `CausalUpliftService.predict`: extract, validate, run both linear-sigmoid
models, clamp the difference to `[0,1]`.  After validation every entry is
finite, read out with `Option.getD 0`. -/
def predict (features : List JSNum) : Except String CausalUpliftResult := do
  let fs := extractFeatures features
  let _ ← validateFeatures fs
  let reals := fs.map (fun o => o.getD 0)
  let mu1 := predictTreatment reals
  let mu0 := predictControl reals
  pure ⟨clamp (mu1 - mu0) 0 1, calculateConfidence reals⟩

/-- `CausalUpliftService.calculate`: `predict` and keep `treatmentEffect`. -/
def calculate (features : List JSNum) : Except String ℝ :=
  (predict features).map (fun r => r.treatmentEffect)

end CausalUpliftService

/-- `UserSafetyProfile.preferences` (all fields optional in the source). -/
structure SafetyPreferences where
  maxDistance : Option ℝ
  minAge : Option ℝ
  maxAge : Option ℝ

/-- `UserSafetyProfile` from `SafetyConstraintsService.ts`. -/
structure UserSafetyProfile where
  userId : String
  age : ℝ
  latitude : ℝ
  longitude : ℝ
  redFlags : List String
  preferences : SafetyPreferences

/-- `SafetyConstraintsResult` (the observability `flags` array, whose
descriptions are built with `toFixed`, is not modelled). -/
structure SafetyConstraintsResult where
  score : ℝ
  distancePenalty : ℝ
  agePenalty : ℝ

namespace SafetyConstraintsService

/-- `RED_FLAG_WEIGHT`. -/
def RED_FLAG_WEIGHT : ℝ := 0.6

/-- `DISTANCE_WEIGHT`. -/
def DISTANCE_WEIGHT : ℝ := 0.25

/-- `AGE_GAP_WEIGHT`. -/
def AGE_GAP_WEIGHT : ℝ := 0.15

/-- `MAX_SAFE_DISTANCE` (km). -/
def MAX_SAFE_DISTANCE : ℝ := 50

/-- `MAX_SAFE_AGE_GAP` (years). -/
def MAX_SAFE_AGE_GAP : ℝ := 15

/-- `RED_FLAG_SEVERITY`: the fixed severity table. -/
def RED_FLAG_SEVERITY : List (String × ℝ) :=
  [("harassment_history", 1.0),
   ("violence_history", 1.0),
   ("fake_profile", 1.0),
   ("scam_attempt", 1.0),
   ("multiple_reports", 0.8),
   ("inappropriate_content", 0.7),
   ("spam_behavior", 0.6),
   ("incomplete_verification", 0.4),
   ("suspicious_activity", 0.3)]

/-- `RED_FLAG_SEVERITY[flag] ?? 0.5`: table lookup with the unknown-flag
default. -/
def flagSeverity (flag : String) : ℝ := (RED_FLAG_SEVERITY.lookup flag).getD 0.5

/-- One user's leg of the `evaluateRedFlags` loop: fold the running maximum
severity along the flag list, short-circuiting (`Sum.inl 1`) as soon as a
severity reaches `1.0`. -/
def scanFlags : List String → ℝ → ℝ ⊕ ℝ
  | [], maxSeverity => .inr maxSeverity
  | flag :: rest, maxSeverity =>
    let severity := flagSeverity flag
    if 1 ≤ severity then .inl 1
    else scanFlags rest (max maxSeverity severity)

/-- `evaluateRedFlags`: user1's flags then user2's flags, with the critical
short-circuit returning `1.0` and otherwise the running maximum severity. -/
def evaluateRedFlags (user1 user2 : UserSafetyProfile) : ℝ :=
  match scanFlags user1.redFlags 0 with
  | .inl v => v
  | .inr m =>
    match scanFlags user2.redFlags m with
    | .inl v => v
    | .inr m2 => m2

/-- `toRadians(degrees) = degrees * (π / 180)`. -/
def toRadians (degrees : ℝ) : ℝ := degrees * (Real.pi / 180)

/-- `Math.atan2(y, x)`, following the ECMAScript quadrant definition. -/
def atan2 (y x : ℝ) : ℝ :=
  if 0 < x then Real.arctan (y / x)
  else if x < 0 ∧ 0 ≤ y then Real.arctan (y / x) + Real.pi
  else if x < 0 ∧ y < 0 then Real.arctan (y / x) - Real.pi
  else if x = 0 ∧ 0 < y then Real.pi / 2
  else if x = 0 ∧ y < 0 then -(Real.pi / 2)
  else 0

/-- `haversineDistance` with Earth radius 6371 km. -/
def haversineDistance (lat1 lon1 lat2 lon2 : ℝ) : ℝ :=
  let dLat := toRadians (lat2 - lat1)
  let dLon := toRadians (lon2 - lon1)
  let a := Real.sin (dLat / 2) * Real.sin (dLat / 2) +
    Real.cos (toRadians lat1) * Real.cos (toRadians lat2) *
    (Real.sin (dLon / 2) * Real.sin (dLon / 2))
  let c := 2 * atan2 (Real.sqrt a) (Real.sqrt (1 - a))
  6371 * c

/-- `calculateDistancePenalty`: haversine distance against the stricter of
the two max-distance preferences (default 50 km), overage ratio beyond it,
graded `distance/50` below it. -/
def calculateDistancePenalty (user1 user2 : UserSafetyProfile) : ℝ :=
  let distance := haversineDistance user1.latitude user1.longitude
    user2.latitude user2.longitude
  let maxDistance := min (user1.preferences.maxDistance.getD MAX_SAFE_DISTANCE)
    (user2.preferences.maxDistance.getD MAX_SAFE_DISTANCE)
  if distance > maxDistance then min (distance / maxDistance - 1) 1
  else min (distance / MAX_SAFE_DISTANCE) 1

/-- The truthiness guard `!user.preferences.minAge || other.age >= minAge`
(a JavaScript `0` preference is falsy, hence `getD 0 = 0` on the left) and
its `maxAge` twin, conjoined: "user's preferences accept the other's age". -/
def agePreferencesCompatible (user other : UserSafetyProfile) : Prop :=
  (user.preferences.minAge.getD 0 = 0 ∨ user.preferences.minAge.getD 0 ≤ other.age) ∧
  (user.preferences.maxAge.getD 0 = 0 ∨ other.age ≤ user.preferences.maxAge.getD 0)

instance (user other : UserSafetyProfile) : Decidable (agePreferencesCompatible user other) := by
  unfold agePreferencesCompatible
  infer_instance

/-- `calculateAgeGapPenalty`: fixed 0.8 when either user's min/max age
preference rejects the other, overage ratio beyond the 15-year safe gap,
graded `gap/15` below it. -/
def calculateAgeGapPenalty (user1 user2 : UserSafetyProfile) : ℝ :=
  let ageGap := |user1.age - user2.age|
  if ¬agePreferencesCompatible user1 user2 ∨ ¬agePreferencesCompatible user2 user1 then 0.8
  else if ageGap > MAX_SAFE_AGE_GAP then min ((ageGap - MAX_SAFE_AGE_GAP) / 10) 1
  else ageGap / MAX_SAFE_AGE_GAP

/-- `SafetyConstraintsService.calculateDetailed`: weighted combination of
the three penalties, clamped to `[0,1]`. -/
def calculateDetailed (user1 user2 : UserSafetyProfile) : SafetyConstraintsResult :=
  let redFlagPenalty := evaluateRedFlags user1 user2
  let distancePenalty := calculateDistancePenalty user1 user2
  let agePenalty := calculateAgeGapPenalty user1 user2
  let totalPenalty := RED_FLAG_WEIGHT * redFlagPenalty +
    DISTANCE_WEIGHT * distancePenalty + AGE_GAP_WEIGHT * agePenalty
  ⟨clamp totalPenalty 0 1, distancePenalty, agePenalty⟩

/-- `SafetyConstraintsService.calculate` returns the `score` field. -/
def calculate (user1 user2 : UserSafetyProfile) : ℝ :=
  (calculateDetailed user1 user2).score

end SafetyConstraintsService

/-- `RBSWeights` from `rbs.types`. -/
structure RBSWeights where
  alpha : ℝ
  beta : ℝ
  gamma : ℝ
  delta : ℝ

/-- `RBSScore` from `rbs.types` (`timestamp` not modelled). -/
structure RBSScore where
  total : ℝ
  sr : ℝ
  cu : ℝ
  ig : ℝ
  sc : ℝ

/-- One side of `RBSInput`. -/
structure RBSInputUser where
  userId : String
  embedding : List ℝ
  profile5D : UserProfile5D
  safetyProfile : UserSafetyProfile

/-- `RBSInput` from `RBSService.ts`; `causalFeatures` are raw JavaScript
numbers (possibly non-finite), hence `JSNum`. -/
structure RBSInput where
  user1 : RBSInputUser
  user2 : RBSInputUser
  causalFeatures : Option (List CausalUpliftService.JSNum)

namespace RBSService

/-- `config.rbs.weights` with the default environment values
`{alpha: 0.45, beta: 0.30, gamma: 0.25, delta: 0.15}`. -/
def configWeights : RBSWeights := ⟨0.45, 0.30, 0.25, 0.15⟩

/-- `validateWeights`, run once in the constructor: the probability-simplex
check on `alpha+beta+gamma`, the `delta` range check, and strict positivity. -/
def validateWeights (w : RBSWeights) : Except String Unit :=
  if |w.alpha + w.beta + w.gamma - 1| > 0.01 then .error "RBS weights must sum to 1.0"
  else if w.delta < 0 ∨ w.delta > 0.3 then .error "RBS delta penalty must be in [0, 0.3]"
  else if w.alpha ≤ 0 ∨ w.beta ≤ 0 ∨ w.gamma ≤ 0 ∨ w.delta < 0 then
    .error "All RBS weights must be positive"
  else .ok ()

/-- The `RBSService` constructor: it stores `config.rbs.weights` after
`validateWeights`; construction fails exactly when validation throws. -/
def mkRBSService (w : RBSWeights) : Except String RBSWeights := do
  let _ ← validateWeights w
  pure w

/-- The private `RBSService.cosineSimilarity` helper of
`extractCausalFeatures`: its loop runs over the common prefix
(`Math.min(v1.length, v2.length)`), so magnitudes too are computed over the
truncated vectors. -/
def rbsCosineSimilarity (v1 v2 : List ℝ) : ℝ :=
  let n := min v1.length v2.length
  let dotProduct := dotl (v1.take n) (v2.take n)
  let mag1 := Real.sqrt (sumSq (v1.take n))
  let mag2 := Real.sqrt (sumSq (v2.take n))
  if mag1 = 0 ∨ mag2 = 0 then 0 else dotProduct / (mag1 * mag2)

/-- `slice(start, end)` on an embedding. -/
def sliceEmb (v : List ℝ) (start stop : ℕ) : List ℝ := (v.drop start).take (stop - start)

/-- `extractCausalFeatures`: the 20-dimensional feature vector from the two
profiles' information-gain details, demographics, and the communication and
interests subspace similarities. -/
def extractCausalFeatures (input : RBSInput) : List ℝ :=
  let ig1 := InformationGainService.calculateDetailed input.user1.profile5D
  let ig2 := InformationGainService.calculateDetailed input.user2.profile5D
  let ageGap := |input.user1.safetyProfile.age - input.user2.safetyProfile.age|
  let ageDiff := ageGap / 50
  let commSimilarity := rbsCosineSimilarity
    (sliceEmb input.user1.embedding 384 448) (sliceEmb input.user2.embedding 384 448)
  let interestSimilarity := rbsCosineSimilarity
    (sliceEmb input.user1.embedding 128 384) (sliceEmb input.user2.embedding 128 384)
  ([ig1.coverage, ig2.coverage, ig1.avgConfidence, ig2.avgConfidence,
    ageDiff,
    input.user1.safetyProfile.age / 100,
    input.user2.safetyProfile.age / 100,
    (input.user1.safetyProfile.redFlags.length : ℝ) / 5,
    (input.user2.safetyProfile.redFlags.length : ℝ) / 5,
    ig1.entropyReduction,
    commSimilarity,
    (input.user1.profile5D.communication.length : ℝ) / 10,
    (input.user2.profile5D.communication.length : ℝ) / 10,
    ig2.entropyReduction,
    (ig1.avgConfidence + ig2.avgConfidence) / 2,
    interestSimilarity,
    (input.user1.profile5D.interests.length : ℝ) / 20,
    (input.user2.profile5D.interests.length : ℝ) / 20,
    ((input.user1.profile5D.interests.length : ℝ) +
      (input.user2.profile5D.interests.length : ℝ)) / 40,
    (ig1.coverage + ig2.coverage) / 2]).take 20

/-- `calculateCU`: pre-computed features when supplied
(`input.causalFeatures || this.extractCausalFeatures(input)`; a JS array is
always truthy, so only `undefined` falls back), else extracted features —
which are finite reals, tagged `some`. -/
def calculateCU (input : RBSInput) : Except String ℝ :=
  CausalUpliftService.calculate
    (input.causalFeatures.getD ((extractCausalFeatures input).map some))

/-- The RBS combination formula applied by `calculate`:
`clamp(α·sr + β·cu + γ·ig − δ·sc, 0, 1)`. -/
def rbsCombine (w : RBSWeights) (sr cu ig sc : ℝ) : ℝ :=
  clamp (w.alpha * sr + w.beta * cu + w.gamma * ig - w.delta * sc) 0 1

/-- `RBSService.calculate`: evaluate the four components (SR and CU may
throw; IG and SC are total) and combine them with the weights. -/
def calculate (w : RBSWeights) (input : RBSInput) : Except String RBSScore := do
  let sr ← SubspaceResonanceService.calculate input.user1.embedding input.user2.embedding
  let cu ← calculateCU input
  let ig := InformationGainService.calculate input.user1.profile5D input.user2.profile5D
  let sc := SafetyConstraintsService.calculate input.user1.safetyProfile
    input.user2.safetyProfile
  let total := clamp (w.alpha * sr + w.beta * cu + w.gamma * ig - w.delta * sc) 0 1
  pure ⟨total, sr, cu, ig, sc⟩

end RBSService

/-- The five score fields the discover route reads from
`rbsService.calculateScore` (`{rbs, sr, cu, ig, sc}`). -/
structure RBS5 where
  rbs : ℝ
  sr : ℝ
  cu : ℝ
  ig : ℝ
  sc : ℝ

/-- A persisted `Match` row as `matchRepo.create` writes it from the
discover route (`createdAt`/`expiresAt` timestamps not modelled). -/
structure MatchRow where
  userId : String
  matchedUserId : String
  rbsScore : ℝ
  srScore : ℝ
  cuScore : ℝ
  igScore : ℝ
  scScore : ℝ
  status : String

/-- An entry of the route's `scoredMatches` response list (the presentation
fields `firstName`, `age` — derived from `new Date()` — and `location` are
not modelled; `compatibility` is `Math.round(rbs*100)`, derived). -/
structure ScoredMatch where
  userId : String
  rbsScore : ℝ

namespace MatchDiscovery

/-- `MatchRepository.findByUserPair(userId, matchedUserId)` against the
store: `prisma.match.findUnique` on the composite ordered-pair key. -/
def findByUserPair (store : List MatchRow) (userId matchedUserId : String) : Bool :=
  store.any (fun r => r.userId = userId ∧ r.matchedUserId = matchedUserId)

/-- The per-candidate loop of `GET /api/matches/discover` (part_006,
lines 83–131): skip candidates with an existing Match row, skip candidates
whose user record is missing, score the rest (`rbsService.calculateScore`,
a method absent from `RBSService.ts` and therefore abstracted as the
`score` parameter), persist a `pending` row, and break once `limit`
results are collected.  There is no per-candidate exception handling: a
scoring error propagates to the route's single `try/catch`, so it is
returned alongside the rows persisted before the failure. -/
def discoverLoop (uid : String) (limit : ℕ) (score : String → Except String RBS5)
    (findUser : String → Bool) :
    List String → List MatchRow → List ScoredMatch →
    List MatchRow × Except String (List ScoredMatch)
  | [], store, acc => (store, .ok acc)
  | candidate :: rest, store, acc =>
    if findByUserPair store uid candidate then
      discoverLoop uid limit score findUser rest store acc
    else if !findUser candidate then
      discoverLoop uid limit score findUser rest store acc
    else
      match score candidate with
      | .error e => (store, .error e)
      | .ok s =>
        let store := store ++ [⟨uid, candidate, s.rbs, s.sr, s.cu, s.ig, s.sc, "pending"⟩]
        let acc := acc ++ [⟨candidate, s.rbs⟩]
        if limit ≤ acc.length then (store, .ok acc)
        else discoverLoop uid limit score findUser rest store acc

/-- The route's final `scoredMatches.sort((a, b) => b.rbsScore - a.rbsScore)`:
sort descending by `rbsScore`. -/
def sortByRbsDesc (l : List ScoredMatch) : List ScoredMatch :=
  l.mergeSort (fun a b => decide (b.rbsScore ≤ a.rbsScore))

/-- `GET /api/matches/discover`: no embedding → empty result; empty k-NN
result → empty result; missing current user → empty result; otherwise run
the loop over the first 50 k-NN candidates and sort the produced matches by
score descending.  Returns the store after the run and either the response
list or the propagated error. -/
def discover (uid : String) (limit : ℕ) (hasVector : Bool) (knn : List String)
    (findUser : String → Bool) (score : String → Except String RBS5)
    (store : List MatchRow) : List MatchRow × Except String (List ScoredMatch) :=
  if !hasVector then (store, .ok [])
  else if knn.isEmpty then (store, .ok [])
  else if !findUser uid then (store, .ok [])
  else
    let (store2, res) := discoverLoop uid limit score findUser (knn.take 50) store []
    (store2, res.map sortByRbsDesc)

/-- An ordered pair `(uid, candidate)` has a row in the store. -/
def PairMem (store : List MatchRow) (uid candidate : String) : Prop :=
  ∃ r ∈ store, r.userId = uid ∧ r.matchedUserId = candidate

/-- No two rows of the store carry the same ordered pair. -/
def NodupPairs (store : List MatchRow) : Prop :=
  store.Pairwise (fun r s => ¬(r.userId = s.userId ∧ r.matchedUserId = s.matchedUserId))

end MatchDiscovery

/-! ### Concrete instances used by witnesses and counterexamples -/

/-- The all-zero 768-dimensional embedding. -/
def zeroEmbedding : List ℝ := List.replicate 768 0

/-- A profile with no traits in any dimension. -/
def emptyProfile (id : String) : UserProfile5D := ⟨id, [], [], [], [], []⟩

/-- A 30-year-old user at the origin with no red flags and no preferences. -/
def plainSafety (id : String) : UserSafetyProfile := ⟨id, 30, 0, 0, [], ⟨none, none, none⟩⟩

/-- A pair input whose every component evaluates to zero: zero embeddings,
empty profiles, identical clean safety profiles, pre-computed all-zero
causal features. -/
def zeroInput : RBSInput :=
  ⟨⟨"u1", zeroEmbedding, emptyProfile "u1", plainSafety "u1"⟩,
   ⟨"u2", zeroEmbedding, emptyProfile "u2", plainSafety "u2"⟩,
   some (List.replicate 20 (some 0))⟩

/-- A profile holding exactly one trait, in `values`, with confidence 1. -/
def profileOneTrait : UserProfile5D :=
  ⟨"p", [("a", ⟨"a", 0.5, 1⟩)], [], [], [], []⟩

/-- A confidence-0 trait, to be added to `profileOneTrait`. -/
def zeroConfTrait : UserTrait := ⟨"b", 0.5, 0⟩

/-- `profileOneTrait` with `zeroConfTrait` added to `values`. -/
def profileTwoTraits : UserProfile5D :=
  ⟨"p", [("a", ⟨"a", 0.5, 1⟩), ("b", ⟨"b", 0.5, 0⟩)], [], [], [], []⟩

/-- A 30-year-old user at the origin carrying the critical
`harassment_history` red flag, with no preferences. -/
def flaggedSafety : UserSafetyProfile :=
  ⟨"f", 30, 0, 0, ["harassment_history"], ⟨none, none, none⟩⟩

/-- A scorer for the discovery scenarios: every candidate scores 1/2. -/
def constScore : String → Except String RBS5 := fun _ => .ok ⟨0.5, 0.5, 0.5, 0.5, 0.5⟩

/-- A scorer that fails on candidate `"a"` and scores `"b"` normally. -/
def failAScore : String → Except String RBS5 :=
  fun c => if c = "a" then .error "boom" else .ok ⟨0.5, 0.5, 0.5, 0.5, 0.5⟩

/-- Every user exists in the user repository. -/
def allUsers : String → Bool := fun _ => true

/-! ### Evaluation lemmas -/

theorem cosineSimilarity_zero (n : ℕ) :
    SubspaceResonanceService.cosineSimilarity (List.replicate n (0 : ℝ))
      (List.replicate n 0) = .ok 0 := by
  unfold SubspaceResonanceService.cosineSimilarity
  rw [if_neg (by simp)]
  rw [if_pos (Or.inl (by rw [sumSq_replicate_zero, Real.sqrt_zero]))]

theorem srCalculate_zero :
    SubspaceResonanceService.calculate zeroEmbedding zeroEmbedding = .ok 0 := by
  unfold SubspaceResonanceService.calculate
  rw [if_neg (by simp [zeroEmbedding, SubspaceResonanceService.vectorSize])]
  rw [if_neg (by simp [zeroEmbedding, SubspaceResonanceService.vectorSize])]
  have hext : ∀ s : SubspaceResonanceService.Subspace,
      SubspaceResonanceService.extractSubspace zeroEmbedding s =
        List.replicate (min (s.stop - s.start) (768 - s.start)) (0 : ℝ) := by
    intro s
    simp only [SubspaceResonanceService.extractSubspace, zeroEmbedding,
      List.drop_replicate, List.take_replicate]
  simp only [SubspaceResonanceService.subspaces, SubspaceResonanceService.resonanceSum,
    hext, cosineSimilarity_zero, bind, pure]
  norm_num [clamp, Except.bind, Except.pure]

theorem dotl_zero_left (n : ℕ) (l : List ℝ) : dotl (List.replicate n 0) l = 0 := by
  induction n generalizing l with
  | zero => simp [dotl]
  | succ k ih =>
    cases l with
    | nil => simp [dotl]
    | cons x xs =>
      rw [List.replicate_succ]
      simpa [dotl] using ih xs

theorem sigmoid_zero : CausalUpliftService.sigmoid 0 = 1 / 2 := by
  rw [CausalUpliftService.sigmoid, neg_zero, Real.exp_zero]
  norm_num

theorem cuCalculate_zero :
    CausalUpliftService.calculate (List.replicate 20 (some 0)) = .ok 0 := by
  unfold CausalUpliftService.calculate CausalUpliftService.predict
  have hext : CausalUpliftService.extractFeatures (List.replicate 20 (some 0)) =
      List.replicate 20 (some 0) := by
    simp [CausalUpliftService.extractFeatures, CausalUpliftService.FEATURE_COUNT]
  have hval : CausalUpliftService.validateFeatures (List.replicate 20 (some 0)) = .ok () := by
    simp [CausalUpliftService.validateFeatures, CausalUpliftService.FEATURE_COUNT]
  have hmap : (List.replicate 20 (some (0 : ℝ))).map (fun o => o.getD 0) =
      List.replicate 20 0 := by
    simp [List.map_replicate]
  simp only [hext, hval, bind, pure, hmap, CausalUpliftService.predictTreatment,
    CausalUpliftService.predictControl, dotl_zero_left, sigmoid_zero, Except.map,
    Except.bind, Except.pure]
  norm_num [clamp]

theorem igCalculateSingle_empty (id : String) :
    (InformationGainService.calculateSingle (emptyProfile id)).score = 0 := by
  simp only [InformationGainService.calculateSingle, InformationGainService.dimensions,
    emptyProfile, InformationGainService.calculateEntropyReduction]
  norm_num [clamp]

theorem igCalculate_empty (id1 id2 : String) :
    InformationGainService.calculate (emptyProfile id1) (emptyProfile id2) = 0 := by
  rw [InformationGainService.calculate, igCalculateSingle_empty, igCalculateSingle_empty]
  norm_num

theorem haversineDistance_self (lat lon : ℝ) :
    SafetyConstraintsService.haversineDistance lat lon lat lon = 0 := by
  unfold SafetyConstraintsService.haversineDistance
  simp only [sub_self, SafetyConstraintsService.toRadians, zero_mul, zero_div,
    Real.sin_zero, mul_zero, zero_add, add_zero]
  rw [Real.sqrt_zero, sub_zero, Real.sqrt_one]
  norm_num [SafetyConstraintsService.atan2, Real.arctan_zero]

/-! ### Claim C6 — SubspaceResonance symmetry and self-similarity -/

theorem resonanceSum_comm (A B : List ℝ) :
    ∀ (ss : List SubspaceResonanceService.Subspace) (acc : ℝ),
    SubspaceResonanceService.resonanceSum A B ss acc =
      SubspaceResonanceService.resonanceSum B A ss acc := by
  intro ss
  induction ss with
  | nil => intro acc; rfl
  | cons s rest ih =>
    intro acc
    simp only [SubspaceResonanceService.resonanceSum]
    rw [SubspaceResonanceService.cosineSimilarity_comm
      (SubspaceResonanceService.extractSubspace A s)
      (SubspaceResonanceService.extractSubspace B s)]
    cases h : SubspaceResonanceService.cosineSimilarity
        (SubspaceResonanceService.extractSubspace B s)
        (SubspaceResonanceService.extractSubspace A s) with
    | error e => simp [bind, Except.bind]
    | ok v => simp only [bind, Except.bind]; exact ih _

/-- C6 (amended): SubspaceResonance `calculate` is symmetric on valid-width
embeddings, and `calculate(A,A)` returns exactly 1 whenever every
configured subspace slice of `A` has nonzero magnitude.  (For a slice of
zero magnitude the source defines the similarity as 0, so `calculate(A,A)`
need not be 1 in general — see the counterexample.) -/
theorem sr_symmetric_and_self_one :
    (∀ A B : List ℝ, A.length = 768 → B.length = 768 →
      SubspaceResonanceService.calculate A B = SubspaceResonanceService.calculate B A) ∧
    (∀ A : List ℝ, A.length = 768 →
      (∀ s ∈ SubspaceResonanceService.subspaces,
        sumSq (SubspaceResonanceService.extractSubspace A s) ≠ 0) →
      SubspaceResonanceService.calculate A A = .ok 1) := by
  constructor
  · intro A B hA hB
    unfold SubspaceResonanceService.calculate
    rw [if_neg (by simp [hA, SubspaceResonanceService.vectorSize])]
    rw [if_neg (by simp [hB, SubspaceResonanceService.vectorSize])]
    rw [if_neg (by simp [hB, SubspaceResonanceService.vectorSize])]
    rw [if_neg (by simp [hA, SubspaceResonanceService.vectorSize])]
    rw [resonanceSum_comm]
  · intro A hA hnz
    unfold SubspaceResonanceService.calculate
    rw [if_neg (by simp [hA, SubspaceResonanceService.vectorSize])]
    rw [if_neg (by simp [hA, SubspaceResonanceService.vectorSize])]
    have h1 := SubspaceResonanceService.cosineSimilarity_self _
      (hnz ⟨"values", 0, 128, 0.30⟩ (by simp [SubspaceResonanceService.subspaces]))
    have h2 := SubspaceResonanceService.cosineSimilarity_self _
      (hnz ⟨"interests", 128, 384, 0.25⟩ (by simp [SubspaceResonanceService.subspaces]))
    have h3 := SubspaceResonanceService.cosineSimilarity_self _
      (hnz ⟨"communication", 384, 448, 0.20⟩ (by simp [SubspaceResonanceService.subspaces]))
    have h4 := SubspaceResonanceService.cosineSimilarity_self _
      (hnz ⟨"lifestyle", 448, 544, 0.15⟩ (by simp [SubspaceResonanceService.subspaces]))
    have h5 := SubspaceResonanceService.cosineSimilarity_self _
      (hnz ⟨"goals", 544, 624, 0.10⟩ (by simp [SubspaceResonanceService.subspaces]))
    simp only [SubspaceResonanceService.subspaces,
      SubspaceResonanceService.resonanceSum, h1, h2, h3, h4, h5, bind,
      Except.bind, pure, Except.pure]
    norm_num [clamp]

/-- C6 counterexample: the all-zero embedding is a valid finite embedding of
the configured width, yet `calculate(A,A)` returns 0, not approximately 1. -/
theorem sr_self_zero_embedding_cex :
    SubspaceResonanceService.calculate zeroEmbedding zeroEmbedding = .ok 0 ∧
    ¬(|(0 : ℝ) - 1| ≤ 1 / 100) := by
  exact ⟨srCalculate_zero, by norm_num⟩

/-! ### Claim C8 — weight-simplex validation at construction -/

/-- C8: construction of the RBS orchestrator succeeds exactly when the
weights satisfy the simplex invariant — `|α+β+γ−1| ≤ 0.01`, `0 ≤ δ ≤ 0.3`,
and `α, β, γ` strictly positive — and `calculate` performs no per-call
weight check: its success or failure is independent of the weights. -/
theorem rbs_construction_simplex_iff :
    (∀ w : RBSWeights,
      RBSService.mkRBSService w = .ok w ↔
        (|w.alpha + w.beta + w.gamma - 1| ≤ 0.01 ∧ 0 ≤ w.delta ∧ w.delta ≤ 0.3 ∧
          0 < w.alpha ∧ 0 < w.beta ∧ 0 < w.gamma)) ∧
    (∀ (w1 w2 : RBSWeights) (input : RBSInput),
      (RBSService.calculate w1 input).isOk = (RBSService.calculate w2 input).isOk) := by
  constructor
  · intro w
    unfold RBSService.mkRBSService RBSService.validateWeights
    by_cases h1 : |w.alpha + w.beta + w.gamma - 1| > 0.01
    · rw [if_pos h1]
      simp only [bind, Except.bind]
      constructor
      · intro h; exact absurd h (by simp)
      · rintro ⟨hle, -⟩
        exact absurd hle (not_le.mpr h1)
    · rw [if_neg h1]
      by_cases h2 : w.delta < 0 ∨ w.delta > 0.3
      · simp only [h2, if_true, bind, Except.bind]
        constructor
        · intro h; exact absurd h (by simp)
        · rintro ⟨-, hd0, hd3, -⟩
          rcases h2 with h | h
          · exact absurd hd0 (not_le.mpr h)
          · exact absurd hd3 (not_le.mpr h)
      · rw [if_neg h2]
        by_cases h3 : w.alpha ≤ 0 ∨ w.beta ≤ 0 ∨ w.gamma ≤ 0 ∨ w.delta < 0
        · simp only [h3, if_true, bind, Except.bind]
          constructor
          · intro h; exact absurd h (by simp)
          · rintro ⟨-, hd0, -, ha, hb, hg⟩
            rcases h3 with h | h | h | h
            · exact absurd ha (not_lt.mpr h)
            · exact absurd hb (not_lt.mpr h)
            · exact absurd hg (not_lt.mpr h)
            · exact absurd hd0 (not_le.mpr h)
        · rw [if_neg h3]
          push_neg at h1 h2 h3
          simp [bind, Except.bind, pure, Except.pure, h1, h2.1, h2.2, h3.1, h3.2.1,
            h3.2.2.1]
  · intro w1 w2 input
    unfold RBSService.calculate
    cases h1 : SubspaceResonanceService.calculate input.user1.embedding
        input.user2.embedding with
    | error e => simp [bind, Except.bind]
    | ok sr =>
      cases h2 : RBSService.calculateCU input with
      | error e => simp [bind, Except.bind, h2]
      | ok cu => simp [bind, Except.bind, h2, pure, Except.pure, Except.isOk, Except.toBool]

/-! ### Claim C9 — causal-uplift feature validation, padding and truncation -/

/-- C9 (amended): `predict` fails fast exactly when a non-finite value
occurs among the first 20 feature entries; a shorter vector is zero-padded
to length 20 without error and a longer one is truncated to its first 20
entries — entries beyond index 19 are discarded before validation, so a
non-finite value there does not raise an error (see the counterexample). -/
theorem cu_predict_validation :
    ∀ features : List CausalUpliftService.JSNum,
      ((CausalUpliftService.predict features).isOk = true ↔
        ∀ x ∈ features.take 20, x ≠ none) ∧
      (20 ≤ features.length →
        CausalUpliftService.extractFeatures features = features.take 20) ∧
      (features.length < 20 →
        CausalUpliftService.extractFeatures features =
          features ++ List.replicate (20 - features.length) (some 0)) := by
  intro features
  have hlen : (CausalUpliftService.extractFeatures features).length = 20 := by
    unfold CausalUpliftService.extractFeatures CausalUpliftService.FEATURE_COUNT
    by_cases h : 20 ≤ features.length
    · rw [if_pos h]
      simp [List.length_take, Nat.min_eq_left h]
    · rw [if_neg h]
      simp only [List.length_append, List.length_replicate]
      omega
  have hmem : ∀ x ∈ CausalUpliftService.extractFeatures features,
      x ∈ features.take 20 ∨ x = some 0 := by
    unfold CausalUpliftService.extractFeatures CausalUpliftService.FEATURE_COUNT
    by_cases h : 20 ≤ features.length
    · rw [if_pos h]
      intro x hx
      exact Or.inl hx
    · rw [if_neg h]
      intro x hx
      rcases List.mem_append.mp hx with hx | hx
      · exact Or.inl (by rw [List.take_of_length_le (by omega)]; exact hx)
      · exact Or.inr (List.eq_of_mem_replicate hx)
  have hmem2 : ∀ x ∈ features.take 20, x ∈ CausalUpliftService.extractFeatures features := by
    unfold CausalUpliftService.extractFeatures CausalUpliftService.FEATURE_COUNT
    by_cases h : 20 ≤ features.length
    · rw [if_pos h]
      intro x hx
      exact hx
    · rw [if_neg h]
      intro x hx
      rw [List.take_of_length_le (by omega)] at hx
      exact List.mem_append.mpr (Or.inl hx)
  have hiff : CausalUpliftService.validateFeatures
      (CausalUpliftService.extractFeatures features) = .ok () ↔
      ∀ x ∈ features.take 20, x ≠ none := by
    unfold CausalUpliftService.validateFeatures
    rw [if_neg (by rw [hlen]; simp [CausalUpliftService.FEATURE_COUNT])]
    by_cases hall : (CausalUpliftService.extractFeatures features).all Option.isSome
    · rw [if_pos hall]
      simp only [true_iff]
      intro x hx hnone
      have := List.all_eq_true.mp hall x (hmem2 x hx)
      rw [hnone] at this
      simp at this
    · rw [if_neg hall]
      constructor
      · intro h
        exact absurd h (by simp)
      · intro hr
        exfalso
        apply hall
        refine List.all_eq_true.mpr (fun x hx => ?_)
        rcases hmem x hx with hx2 | hx2
        · cases x with
          | none => exact absurd rfl (hr none hx2)
          | some v => rfl
        · rw [hx2]; rfl
  refine ⟨?_, ?_, ?_⟩
  · unfold CausalUpliftService.predict
    cases hv : CausalUpliftService.validateFeatures
        (CausalUpliftService.extractFeatures features) with
    | error e =>
      rw [hv] at hiff
      simp only [hv, bind, Except.bind, Except.isOk, Except.toBool]
      constructor
      · intro h; exact absurd h (by simp)
      · intro hr
        exact absurd (hiff.mpr hr) (by simp)
    | ok u =>
      cases u
      rw [hv] at hiff
      simp only [hv, bind, Except.bind, pure, Except.pure, Except.isOk, Except.toBool]
      simpa using hiff
  · intro h
    unfold CausalUpliftService.extractFeatures CausalUpliftService.FEATURE_COUNT
    rw [if_pos h]
  · intro h
    unfold CausalUpliftService.extractFeatures CausalUpliftService.FEATURE_COUNT
    rw [if_neg (not_le.mpr h)]

/-- C9 counterexample: a 21-entry feature vector whose last entry is
non-finite; `predict` succeeds because truncation discards the bad entry
before validation, contradicting "fails fast whenever any feature value of
its input is non-finite". -/
theorem cu_nonfinite_tail_cex :
    ((List.replicate 20 (some (0 : ℝ)) ++ [none]).any Option.isNone) = true ∧
    (CausalUpliftService.predict (List.replicate 20 (some (0 : ℝ)) ++ [none])).isOk
      = true := by
  constructor
  · simp
  · have hext : CausalUpliftService.extractFeatures
        (List.replicate 20 (some (0 : ℝ)) ++ [none]) = List.replicate 20 (some 0) := by
      unfold CausalUpliftService.extractFeatures CausalUpliftService.FEATURE_COUNT
      rw [if_pos (by simp)]
      rw [List.take_append_of_le_length (by simp)]
      simp
    unfold CausalUpliftService.predict
    rw [hext]
    have hval : CausalUpliftService.validateFeatures (List.replicate 20 (some (0:ℝ))) =
        .ok () := by
      simp [CausalUpliftService.validateFeatures, CausalUpliftService.FEATURE_COUNT]
    simp only [hval, bind, Except.bind, pure, Except.pure, Except.isOk, Except.toBool]

/-! ### Claim C1 — the RBS combination formula and the scenario total -/

theorem scCalculate_plain (id1 id2 : String) :
    SafetyConstraintsService.calculate (plainSafety id1) (plainSafety id2) = 0 := by
  have hrf : SafetyConstraintsService.evaluateRedFlags (plainSafety id1)
      (plainSafety id2) = 0 := by
    simp [SafetyConstraintsService.evaluateRedFlags, SafetyConstraintsService.scanFlags,
      plainSafety]
  have hd : SafetyConstraintsService.calculateDistancePenalty (plainSafety id1)
      (plainSafety id2) = 0 := by
    unfold SafetyConstraintsService.calculateDistancePenalty
    simp only [plainSafety]
    rw [haversineDistance_self]
    norm_num [SafetyConstraintsService.MAX_SAFE_DISTANCE]
  have hc1 : SafetyConstraintsService.agePreferencesCompatible (plainSafety id1)
      (plainSafety id2) := by
    simp [SafetyConstraintsService.agePreferencesCompatible, plainSafety]
  have hc2 : SafetyConstraintsService.agePreferencesCompatible (plainSafety id2)
      (plainSafety id1) := by
    simp [SafetyConstraintsService.agePreferencesCompatible, plainSafety]
  have ha : SafetyConstraintsService.calculateAgeGapPenalty (plainSafety id1)
      (plainSafety id2) = 0 := by
    unfold SafetyConstraintsService.calculateAgeGapPenalty
    rw [if_neg (by push_neg; exact ⟨hc1, hc2⟩)]
    simp only [plainSafety]
    norm_num [SafetyConstraintsService.MAX_SAFE_AGE_GAP]
  unfold SafetyConstraintsService.calculate SafetyConstraintsService.calculateDetailed
  simp only [hrf, hd, ha]
  norm_num [clamp, SafetyConstraintsService.RED_FLAG_WEIGHT,
    SafetyConstraintsService.DISTANCE_WEIGHT, SafetyConstraintsService.AGE_GAP_WEIGHT]

/-- C1 (amended): whenever all four component evaluations succeed, the RBS
orchestrator's `calculate` returns a score whose `total` is
`clamp(α·SR + β·CU + γ·IG − δ·SC, 0, 1)` over the returned component
values; with the default weights and components
`{sr: 0.90, cu: 0.75, ig: 0.80, sc: 0.10}` the total is **0.815**, not
0.7975 as the spec's scenario computes. -/
theorem rbs_total_formula :
    ∀ (w : RBSWeights) (input : RBSInput) (s : RBSScore),
      RBSService.calculate w input = .ok s →
      s.total = RBSService.rbsCombine w s.sr s.cu s.ig s.sc ∧
      RBSService.rbsCombine RBSService.configWeights 0.9 0.75 0.8 0.1 = 0.815 := by
  intro w input s h
  refine ⟨?_, by norm_num [RBSService.rbsCombine, RBSService.configWeights, clamp]⟩
  unfold RBSService.calculate at h
  cases h1 : SubspaceResonanceService.calculate input.user1.embedding
      input.user2.embedding with
  | error e => rw [h1] at h; simp [bind, Except.bind] at h
  | ok sr =>
    rw [h1] at h
    cases h2 : RBSService.calculateCU input with
    | error e => rw [h2] at h; simp [bind, Except.bind] at h
    | ok cu =>
      rw [h2] at h
      simp only [bind, Except.bind, pure, Except.pure] at h
      injection h with h3
      rw [← h3]
      simp [RBSService.rbsCombine]

/-- C1 counterexample: at the spec's scenario weights and components the
code's combination formula yields 0.815; the claimed total 0.7975 is a
miscalculation. -/
theorem rbs_scenario_total_cex :
    RBSService.rbsCombine RBSService.configWeights 0.9 0.75 0.8 0.1 = 0.815 ∧
    RBSService.rbsCombine RBSService.configWeights 0.9 0.75 0.8 0.1 ≠ 0.7975 := by
  norm_num [RBSService.rbsCombine, RBSService.configWeights, clamp]

/-- Witness for `rbs_total_formula`: the all-zero pair input evaluates to
`ok ⟨0,0,0,0,0⟩`, discharging the success hypothesis at a concrete input. -/
theorem rbs_total_formula_witness :
    (RBSScore.mk 0 0 0 0 0).total =
      RBSService.rbsCombine RBSService.configWeights (RBSScore.mk 0 0 0 0 0).sr
        (RBSScore.mk 0 0 0 0 0).cu (RBSScore.mk 0 0 0 0 0).ig
        (RBSScore.mk 0 0 0 0 0).sc ∧
    RBSService.rbsCombine RBSService.configWeights 0.9 0.75 0.8 0.1 = 0.815 :=
  rbs_total_formula RBSService.configWeights zeroInput ⟨0, 0, 0, 0, 0⟩ (by
    have hcu : RBSService.calculateCU zeroInput = .ok 0 := by
      unfold RBSService.calculateCU
      rw [show zeroInput.causalFeatures = some (List.replicate 20 (some 0)) from rfl]
      rw [Option.getD_some]
      exact cuCalculate_zero
    have e1 : zeroInput.user1.embedding = zeroEmbedding := rfl
    have e2 : zeroInput.user2.embedding = zeroEmbedding := rfl
    have p1 : zeroInput.user1.profile5D = emptyProfile "u1" := rfl
    have p2 : zeroInput.user2.profile5D = emptyProfile "u2" := rfl
    have q1 : zeroInput.user1.safetyProfile = plainSafety "u1" := rfl
    have q2 : zeroInput.user2.safetyProfile = plainSafety "u2" := rfl
    unfold RBSService.calculate
    rw [e1, e2, srCalculate_zero]
    simp only [bind, Except.bind]
    rw [hcu]
    simp only [bind, Except.bind]
    rw [p1, p2, igCalculate_empty, q1, q2, scCalculate_plain]
    simp only [pure, Except.pure, Except.ok.injEq, RBSScore.mk.injEq]
    norm_num [clamp, RBSService.configWeights])

/-! ### Claim C2 — information-gain monotonicity -/

theorem igEntropy_single_dim (c : ℝ) (hc : 0 < c) :
    InformationGainService.calculateEntropyReduction [c, 0, 0, 0, 0] = 0 := by
  simp only [InformationGainService.calculateEntropyReduction, List.sum_cons,
    List.sum_nil, add_zero]
  rw [if_neg hc.ne']
  simp only [List.map_cons, List.map_nil, List.sum_cons, List.sum_nil]
  rw [if_pos hc, div_self hc.ne', Real.logb_one]
  norm_num

theorem ig_single_one_trait :
    (InformationGainService.calculateSingle profileOneTrait).score = 0.424 := by
  have he := igEntropy_single_dim (1 / 5) (by norm_num)
  simp only [InformationGainService.calculateSingle, InformationGainService.dimensions,
    profileOneTrait, InformationGainService.MIN_TRAITS_PER_DIMENSION,
    InformationGainService.TOTAL_EXPECTED_TRAITS, List.map_cons, List.map_nil,
    List.sum_cons, List.sum_nil, List.length_cons, List.length_nil]
  norm_num [min_def, clamp, max_def, he]

theorem ig_single_two_traits :
    (InformationGainService.calculateSingle profileTwoTraits).score = 0.248 := by
  have he := igEntropy_single_dim (2 / 5) (by norm_num)
  simp only [InformationGainService.calculateSingle, InformationGainService.dimensions,
    profileTwoTraits, InformationGainService.MIN_TRAITS_PER_DIMENSION,
    InformationGainService.TOTAL_EXPECTED_TRAITS, List.map_cons, List.map_nil,
    List.sum_cons, List.sum_nil, List.length_cons, List.length_nil]
  norm_num [min_def, clamp, max_def, he]

/-- C2 (code bug): adding the confidence-0 trait `"b"` to a profile with a
single confidence-1 trait in `values` **decreases** the single-profile
information-gain score from 0.424 to 0.248, violating the monotonicity
contract that the spec states and the source's own documentation and tests
assert (`validateMonotonicity`: "Adding traits should never decrease IG
score"). -/
theorem ig_add_trait_decreases_score :
    (profileOneTrait.values.lookup "b" = none) ∧
    InformationGainService.addTrait profileOneTrait "values" "b" zeroConfTrait =
      profileTwoTraits ∧
    (InformationGainService.calculateSingle
        (InformationGainService.addTrait profileOneTrait "values" "b" zeroConfTrait)).score <
      (InformationGainService.calculateSingle profileOneTrait).score := by
  have hadd : InformationGainService.addTrait profileOneTrait "values" "b" zeroConfTrait =
      profileTwoTraits := by
    unfold InformationGainService.addTrait InformationGainService.mapSet
    rw [if_pos rfl]
    rw [if_neg (by simp [profileOneTrait, List.lookup])]
    rfl
  refine ⟨by simp [profileOneTrait, List.lookup], hadd, ?_⟩
  rw [hadd, ig_single_one_trait, ig_single_two_traits]
  norm_num

/-! ### Claim C3 — critical red flags and the safety score -/

theorem scanFlags_crit :
    ∀ (l : List String) (m : ℝ),
      (∃ f ∈ l, 1 ≤ SafetyConstraintsService.flagSeverity f) →
      SafetyConstraintsService.scanFlags l m = .inl 1 := by
  intro l
  induction l with
  | nil => intro m h; simp at h
  | cons f rest ih =>
    intro m h
    unfold SafetyConstraintsService.scanFlags
    by_cases hf : 1 ≤ SafetyConstraintsService.flagSeverity f
    · rw [if_pos hf]
    · rw [if_neg hf]
      rcases h with ⟨g, hg, hsev⟩
      rcases List.mem_cons.mp hg with rfl | hg2
      · exact absurd hsev hf
      · exact ih _ ⟨g, hg2, hsev⟩

theorem scanFlags_inl_eq_one :
    ∀ (l : List String) (m v : ℝ),
      SafetyConstraintsService.scanFlags l m = .inl v → v = 1 := by
  intro l
  induction l with
  | nil => intro m v h; simp [SafetyConstraintsService.scanFlags] at h
  | cons f rest ih =>
    intro m v h
    unfold SafetyConstraintsService.scanFlags at h
    by_cases hf : 1 ≤ SafetyConstraintsService.flagSeverity f
    · rw [if_pos hf] at h
      exact (Sum.inl.inj h).symm
    · rw [if_neg hf] at h
      exact ih _ _ h

/-- C3 (amended): when either user carries a flag of severity 1.0, the
red-flag evaluation short-circuits and returns its maximum penalty 1.0 —
but only the red-flag component: the overall score is
`clamp(0.6·1 + 0.25·distance + 0.15·age, 0, 1)`, which still depends on
the distance and age-gap penalties and is not the maximum possible overall
penalty (see the counterexample, where it is 0.6). -/
theorem sc_critical_flag_short_circuit :
    ∀ u1 u2 : UserSafetyProfile,
      (∃ f ∈ u1.redFlags ++ u2.redFlags, 1 ≤ SafetyConstraintsService.flagSeverity f) →
      SafetyConstraintsService.evaluateRedFlags u1 u2 = 1 ∧
      (SafetyConstraintsService.calculateDetailed u1 u2).score =
        clamp (0.6 * 1 + 0.25 * SafetyConstraintsService.calculateDistancePenalty u1 u2 +
          0.15 * SafetyConstraintsService.calculateAgeGapPenalty u1 u2) 0 1 := by
  intro u1 u2 h
  have hrf : SafetyConstraintsService.evaluateRedFlags u1 u2 = 1 := by
    unfold SafetyConstraintsService.evaluateRedFlags
    rcases h with ⟨f, hf, hsev⟩
    rcases List.mem_append.mp hf with h1 | h2
    · rw [scanFlags_crit u1.redFlags 0 ⟨f, h1, hsev⟩]
    · cases hs : SafetyConstraintsService.scanFlags u1.redFlags 0 with
      | inl v => simp [scanFlags_inl_eq_one u1.redFlags 0 v hs]
      | inr m => simp [scanFlags_crit u2.redFlags m ⟨f, h2, hsev⟩]
  refine ⟨hrf, ?_⟩
  unfold SafetyConstraintsService.calculateDetailed
  simp only [hrf]
  norm_num [SafetyConstraintsService.RED_FLAG_WEIGHT,
    SafetyConstraintsService.DISTANCE_WEIGHT, SafetyConstraintsService.AGE_GAP_WEIGHT]

theorem distPenalty_colocated (u1 u2 : UserSafetyProfile)
    (h1 : u1.latitude = u2.latitude) (h2 : u1.longitude = u2.longitude)
    (h3 : u1.preferences.maxDistance = none) (h4 : u2.preferences.maxDistance = none) :
    SafetyConstraintsService.calculateDistancePenalty u1 u2 = 0 := by
  unfold SafetyConstraintsService.calculateDistancePenalty
  rw [h1, h2, haversineDistance_self, h3, h4]
  simp only [Option.getD_none]
  norm_num [SafetyConstraintsService.MAX_SAFE_DISTANCE]

theorem agePenalty_same_age_no_prefs (u1 u2 : UserSafetyProfile)
    (hage : u1.age = u2.age)
    (p1 : u1.preferences.minAge = none) (p2 : u1.preferences.maxAge = none)
    (p3 : u2.preferences.minAge = none) (p4 : u2.preferences.maxAge = none) :
    SafetyConstraintsService.calculateAgeGapPenalty u1 u2 = 0 := by
  have hc1 : SafetyConstraintsService.agePreferencesCompatible u1 u2 := by
    simp [SafetyConstraintsService.agePreferencesCompatible, p1, p2]
  have hc2 : SafetyConstraintsService.agePreferencesCompatible u2 u1 := by
    simp [SafetyConstraintsService.agePreferencesCompatible, p3, p4]
  unfold SafetyConstraintsService.calculateAgeGapPenalty
  rw [if_neg (by push_neg; exact ⟨hc1, hc2⟩)]
  rw [hage]
  norm_num [SafetyConstraintsService.MAX_SAFE_AGE_GAP]

/-- C3 counterexample: a user with the critical `harassment_history` flag
paired with a clean co-located same-age user yields an overall safety score
of 0.6 — not the maximum possible penalty 1.0 — because the distance and
age penalties (both 0 here) still enter the weighted combination. -/
theorem sc_critical_flag_score_cex :
    (SafetyConstraintsService.calculateDetailed flaggedSafety (plainSafety "c")).score
      = 0.6 ∧ (0.6 : ℝ) ≠ 1 := by
  refine ⟨?_, by norm_num⟩
  have h1 : SafetyConstraintsService.scanFlags flaggedSafety.redFlags 0 = .inl 1 := by
    show SafetyConstraintsService.scanFlags ["harassment_history"] 0 = .inl 1
    unfold SafetyConstraintsService.scanFlags
    rw [if_pos (by norm_num [SafetyConstraintsService.flagSeverity,
      SafetyConstraintsService.RED_FLAG_SEVERITY, List.lookup])]
  have hrf : SafetyConstraintsService.evaluateRedFlags flaggedSafety (plainSafety "c")
      = 1 := by
    unfold SafetyConstraintsService.evaluateRedFlags
    rw [h1]
  have hd : SafetyConstraintsService.calculateDistancePenalty flaggedSafety
      (plainSafety "c") = 0 :=
    distPenalty_colocated _ _ rfl rfl rfl rfl
  have ha : SafetyConstraintsService.calculateAgeGapPenalty flaggedSafety
      (plainSafety "c") = 0 :=
    agePenalty_same_age_no_prefs _ _ rfl rfl rfl rfl rfl
  unfold SafetyConstraintsService.calculateDetailed
  simp only [hrf, hd, ha]
  norm_num [clamp, SafetyConstraintsService.RED_FLAG_WEIGHT,
    SafetyConstraintsService.DISTANCE_WEIGHT, SafetyConstraintsService.AGE_GAP_WEIGHT]

/-- Witness for `sc_critical_flag_short_circuit` at the concrete flagged
pair. -/
theorem sc_critical_flag_short_circuit_witness :
    SafetyConstraintsService.evaluateRedFlags flaggedSafety (plainSafety "w") = 1 ∧
    (SafetyConstraintsService.calculateDetailed flaggedSafety (plainSafety "w")).score =
      clamp (0.6 * 1 +
        0.25 * SafetyConstraintsService.calculateDistancePenalty flaggedSafety
          (plainSafety "w") +
        0.15 * SafetyConstraintsService.calculateAgeGapPenalty flaggedSafety
          (plainSafety "w")) 0 1 :=
  sc_critical_flag_short_circuit flaggedSafety (plainSafety "w")
    ⟨"harassment_history", by simp [flaggedSafety],
      by norm_num [SafetyConstraintsService.flagSeverity,
        SafetyConstraintsService.RED_FLAG_SEVERITY, List.lookup]⟩

/-! ### Claim C10 — symmetry of the safety-constraints score -/

theorem flagSeverity_lookup_nonneg (tbl : List (String × ℝ))
    (hp : ∀ p ∈ tbl, 0 ≤ p.2) (f : String) (d : ℝ) (hd : 0 ≤ d) :
    0 ≤ (tbl.lookup f).getD d := by
  induction tbl with
  | nil => simpa [List.lookup] using hd
  | cons p rest ih =>
    obtain ⟨k, v⟩ := p
    cases hb : (f == k) with
    | true =>
      simp only [List.lookup, hb, Option.getD_some]
      exact hp (k, v) (List.mem_cons_self _ _)
    | false =>
      simp only [List.lookup, hb]
      exact ih (fun q hq => hp q (List.mem_cons_of_mem _ hq))

theorem flagSeverity_nonneg (f : String) :
    0 ≤ SafetyConstraintsService.flagSeverity f := by
  unfold SafetyConstraintsService.flagSeverity
  refine flagSeverity_lookup_nonneg _ ?_ f _ (by norm_num)
  intro p hp
  simp only [SafetyConstraintsService.RED_FLAG_SEVERITY, List.mem_cons,
    List.not_mem_nil, or_false] at hp
  rcases hp with rfl | rfl | rfl | rfl | rfl | rfl | rfl | rfl | rfl <;> norm_num

theorem scanFlags_nocrit (l : List String)
    (h : ∀ f ∈ l, SafetyConstraintsService.flagSeverity f < 1) :
    ∀ m : ℝ, SafetyConstraintsService.scanFlags l m =
      .inr (l.foldl (fun a f => max a (SafetyConstraintsService.flagSeverity f)) m) := by
  induction l with
  | nil => intro m; rfl
  | cons f rest ih =>
    intro m
    unfold SafetyConstraintsService.scanFlags
    rw [if_neg (not_le.mpr (h f (List.mem_cons_self f rest)))]
    rw [List.foldl_cons]
    exact ih (fun g hg => h g (List.mem_cons_of_mem f hg)) _

theorem le_foldl_max (l : List String) :
    ∀ m : ℝ, m ≤ l.foldl (fun a f => max a (SafetyConstraintsService.flagSeverity f)) m := by
  induction l with
  | nil => intro m; simp
  | cons f rest ih =>
    intro m
    rw [List.foldl_cons]
    exact le_trans (le_max_left _ _) (ih _)

theorem foldl_max_from (l : List String) :
    ∀ m : ℝ, 0 ≤ m →
      l.foldl (fun a f => max a (SafetyConstraintsService.flagSeverity f)) m =
        max m (l.foldl (fun a f => max a (SafetyConstraintsService.flagSeverity f)) 0) := by
  induction l with
  | nil =>
    intro m hm
    simp only [List.foldl_nil]
    exact (max_eq_left hm).symm
  | cons f rest ih =>
    intro m hm
    rw [List.foldl_cons, List.foldl_cons]
    rw [ih (max m (SafetyConstraintsService.flagSeverity f))
      (le_trans hm (le_max_left _ _))]
    rw [ih (max 0 (SafetyConstraintsService.flagSeverity f)) (le_max_left _ _)]
    rw [max_eq_right (flagSeverity_nonneg f)]
    rw [max_assoc]

theorem evaluateRedFlags_comm (u1 u2 : UserSafetyProfile) :
    SafetyConstraintsService.evaluateRedFlags u1 u2 =
      SafetyConstraintsService.evaluateRedFlags u2 u1 := by
  by_cases h1 : ∃ f ∈ u1.redFlags, 1 ≤ SafetyConstraintsService.flagSeverity f
  · unfold SafetyConstraintsService.evaluateRedFlags
    rw [scanFlags_crit u1.redFlags 0 h1]
    cases hs : SafetyConstraintsService.scanFlags u2.redFlags 0 with
    | inl v => simp [scanFlags_inl_eq_one _ _ _ hs]
    | inr m => simp [scanFlags_crit u1.redFlags m h1]
  · by_cases h2 : ∃ f ∈ u2.redFlags, 1 ≤ SafetyConstraintsService.flagSeverity f
    · unfold SafetyConstraintsService.evaluateRedFlags
      rw [scanFlags_crit u2.redFlags 0 h2]
      cases hs : SafetyConstraintsService.scanFlags u1.redFlags 0 with
      | inl v => simp [scanFlags_inl_eq_one _ _ _ hs]
      | inr m => simp [scanFlags_crit u2.redFlags m h2]
    · push_neg at h1 h2
      unfold SafetyConstraintsService.evaluateRedFlags
      simp only [scanFlags_nocrit u1.redFlags h1, scanFlags_nocrit u2.redFlags h2]
      rw [foldl_max_from u2.redFlags _ (le_foldl_max u1.redFlags 0)]
      rw [foldl_max_from u1.redFlags _ (le_foldl_max u2.redFlags 0)]
      rw [max_comm]

theorem haversineDistance_comm (lat1 lon1 lat2 lon2 : ℝ) :
    SafetyConstraintsService.haversineDistance lat1 lon1 lat2 lon2 =
      SafetyConstraintsService.haversineDistance lat2 lon2 lat1 lon1 := by
  simp only [SafetyConstraintsService.haversineDistance, SafetyConstraintsService.toRadians]
  have key : ∀ x y : ℝ,
      Real.sin ((x - y) * (Real.pi / 180) / 2) * Real.sin ((x - y) * (Real.pi / 180) / 2) =
      Real.sin ((y - x) * (Real.pi / 180) / 2) * Real.sin ((y - x) * (Real.pi / 180) / 2) := by
    intro x y
    rw [show (x - y) * (Real.pi / 180) / 2 = -((y - x) * (Real.pi / 180) / 2) by ring,
      Real.sin_neg, neg_mul_neg]
  rw [key lat2 lat1, key lon2 lon1]
  rw [mul_comm (Real.cos (lat1 * (Real.pi / 180))) (Real.cos (lat2 * (Real.pi / 180)))]

theorem distancePenalty_comm (u1 u2 : UserSafetyProfile) :
    SafetyConstraintsService.calculateDistancePenalty u1 u2 =
      SafetyConstraintsService.calculateDistancePenalty u2 u1 := by
  unfold SafetyConstraintsService.calculateDistancePenalty
  rw [haversineDistance_comm]
  rw [min_comm (u1.preferences.maxDistance.getD SafetyConstraintsService.MAX_SAFE_DISTANCE)
    (u2.preferences.maxDistance.getD SafetyConstraintsService.MAX_SAFE_DISTANCE)]

theorem agePenalty_comm (u1 u2 : UserSafetyProfile) :
    SafetyConstraintsService.calculateAgeGapPenalty u1 u2 =
      SafetyConstraintsService.calculateAgeGapPenalty u2 u1 := by
  unfold SafetyConstraintsService.calculateAgeGapPenalty
  rw [abs_sub_comm u1.age u2.age]
  simp only [or_comm]

/-- C10: the safety-constraints score is symmetric in the two users — the
red-flag penalty (maximum severity over both users' flags, with the
critical short-circuit), the distance penalty (symmetric haversine distance
against the stricter preference) and the age-gap penalty (both directions
checked) are each symmetric, hence so is their weighted combination. -/
theorem sc_calculate_symmetric :
    ∀ u1 u2 : UserSafetyProfile,
      SafetyConstraintsService.calculate u1 u2 =
        SafetyConstraintsService.calculate u2 u1 := by
  intro u1 u2
  unfold SafetyConstraintsService.calculate SafetyConstraintsService.calculateDetailed
  rw [evaluateRedFlags_comm u1 u2, distancePenalty_comm u1 u2, agePenalty_comm u1 u2]

/-! ### Discovery-loop lemmas (claims C4, C5, C7) -/

theorem findByUserPair_iff (store : List MatchRow) (u c : String) :
    MatchDiscovery.findByUserPair store u c = true ↔
      MatchDiscovery.PairMem store u c := by
  unfold MatchDiscovery.findByUserPair MatchDiscovery.PairMem
  simp [List.any_eq_true]

theorem pairMem_append (st l : List MatchRow) (u c : String)
    (h : MatchDiscovery.PairMem st u c) : MatchDiscovery.PairMem (st ++ l) u c := by
  obtain ⟨r, hr, hp⟩ := h
  exact ⟨r, List.mem_append_left _ hr, hp⟩

theorem nodupPairs_append_single (st : List MatchRow) (row : MatchRow)
    (hnd : MatchDiscovery.NodupPairs st)
    (hnp : ¬MatchDiscovery.PairMem st row.userId row.matchedUserId) :
    MatchDiscovery.NodupPairs (st ++ [row]) := by
  unfold MatchDiscovery.NodupPairs at *
  rw [List.pairwise_append]
  refine ⟨hnd, List.pairwise_singleton _ _, ?_⟩
  intro a ha b hb
  simp only [List.mem_singleton] at hb
  subst hb
  rintro ⟨hu, hm⟩
  exact hnp ⟨a, ha, hu, hm⟩

theorem discoverLoop_spec (uid : String) (limit : ℕ)
    (score : String → Except String RBS5) (findUser : String → Bool) :
    ∀ (cands : List String) (store : List MatchRow) (acc : List ScoredMatch),
      acc.length < limit →
      ∃ newRows : List MatchRow,
        (MatchDiscovery.discoverLoop uid limit score findUser cands store acc).1 =
          store ++ newRows ∧
        newRows.length + acc.length ≤ limit ∧
        (∀ r ∈ newRows, r.userId = uid ∧ r.status = "pending" ∧
          r.matchedUserId ∈ cands ∧
          ¬MatchDiscovery.PairMem store uid r.matchedUserId) ∧
        (MatchDiscovery.NodupPairs store → MatchDiscovery.NodupPairs (store ++ newRows)) := by
  intro cands
  induction cands with
  | nil =>
    intro store acc hacc
    refine ⟨[], by simp [MatchDiscovery.discoverLoop], by simp; omega, by simp, ?_⟩
    intro h
    simpa using h
  | cons c rest ih =>
    intro store acc hacc
    unfold MatchDiscovery.discoverLoop
    by_cases h1 : MatchDiscovery.findByUserPair store uid c = true
    · rw [if_pos h1]
      obtain ⟨nr, e1, e2, e3, e4⟩ := ih store acc hacc
      refine ⟨nr, e1, e2, fun r hr => ?_, e4⟩
      obtain ⟨p1, p2, p3, p4⟩ := e3 r hr
      exact ⟨p1, p2, List.mem_cons_of_mem _ p3, p4⟩
    · rw [if_neg h1]
      by_cases h2 : findUser c = true
      · rw [if_neg (by simp [h2])]
        cases hs : score c with
        | error e =>
          simp only [hs]
          refine ⟨[], by simp, by simp; omega, by simp, ?_⟩
          intro h
          simpa using h
        | ok s =>
          simp only [hs]
          have hnp : ¬MatchDiscovery.PairMem store uid c := by
            rw [← findByUserPair_iff]
            simp [h1]
          by_cases h3 : limit ≤ (acc ++ [(⟨c, s.rbs⟩ : ScoredMatch)]).length
          · rw [if_pos h3]
            refine ⟨[⟨uid, c, s.rbs, s.sr, s.cu, s.ig, s.sc, "pending"⟩], rfl, ?_,
              ?_, ?_⟩
            · simp only [List.length_singleton]
              omega
            · intro r hr
              simp only [List.mem_singleton] at hr
              subst hr
              exact ⟨rfl, rfl, List.mem_cons_self _ _, hnp⟩
            · intro hnd
              exact nodupPairs_append_single store _ hnd hnp
          · rw [if_neg h3]
            have hlt : (acc ++ [(⟨c, s.rbs⟩ : ScoredMatch)]).length < limit := by
              omega
            obtain ⟨nr, e1, e2, e3, e4⟩ :=
              ih (store ++ [⟨uid, c, s.rbs, s.sr, s.cu, s.ig, s.sc, "pending"⟩])
                (acc ++ [⟨c, s.rbs⟩]) hlt
            refine ⟨⟨uid, c, s.rbs, s.sr, s.cu, s.ig, s.sc, "pending"⟩ :: nr, ?_, ?_,
              ?_, ?_⟩
            · rw [e1, List.append_assoc]
              rfl
            · simp only [List.length_cons]
              simp only [List.length_append, List.length_singleton] at e2
              omega
            · intro r hr
              rcases List.mem_cons.mp hr with rfl | hr2
              · exact ⟨rfl, rfl, List.mem_cons_self _ _, hnp⟩
              · obtain ⟨p1, p2, p3, p4⟩ := e3 r hr2
                refine ⟨p1, p2, List.mem_cons_of_mem _ p3, fun hc => p4 (pairMem_append _ _ _ _ hc)⟩
            · intro hnd
              have hnd2 : MatchDiscovery.NodupPairs
                  (store ++ [⟨uid, c, s.rbs, s.sr, s.cu, s.ig, s.sc, "pending"⟩]) :=
                nodupPairs_append_single store
                  ⟨uid, c, s.rbs, s.sr, s.cu, s.ig, s.sc, "pending"⟩ hnd hnp
              have := e4 hnd2
              rwa [List.append_assoc] at this
      · rw [if_pos (by simp [h2])]
        obtain ⟨nr, e1, e2, e3, e4⟩ := ih store acc hacc
        refine ⟨nr, e1, e2, fun r hr => ?_, e4⟩
        obtain ⟨p1, p2, p3, p4⟩ := e3 r hr
        exact ⟨p1, p2, List.mem_cons_of_mem _ p3, p4⟩

theorem sortByRbsDesc_sorted (l : List ScoredMatch) :
    (MatchDiscovery.sortByRbsDesc l).Pairwise (fun a b => b.rbsScore ≤ a.rbsScore) := by
  unfold MatchDiscovery.sortByRbsDesc
  have h := @List.sorted_mergeSort ScoredMatch
    (fun a b => decide (b.rbsScore ≤ a.rbsScore))
    (fun a b c hab hbc => decide_eq_true
      (le_trans (of_decide_eq_true hbc) (of_decide_eq_true hab)))
    (fun a b => by
      rcases le_total b.rbsScore a.rbsScore with h | h
      · simp [h]
      · simp [h]) l
  exact h.imp (fun hd => of_decide_eq_true hd)

/-! ### Claim C7 — bounded, deduplicated, sorted discovery output -/

/-- C7: for every discovery request with a valid limit (`validatePagination`
enforces `1 ≤ limit`), the pipeline appends at most `limit` new rows to the
Match store, every new row is a `pending` row of the requesting user for a
candidate from the first 50 k-NN results that had no existing row with the
user, and any successfully returned list is sorted by score descending. -/
theorem discover_bounded_dedup_sorted :
    ∀ (uid : String) (limit : ℕ) (hasVector : Bool) (knn : List String)
      (findUser : String → Bool) (score : String → Except String RBS5)
      (store : List MatchRow),
      1 ≤ limit →
      ∃ newRows : List MatchRow,
        (MatchDiscovery.discover uid limit hasVector knn findUser score store).1 =
          store ++ newRows ∧
        newRows.length ≤ limit ∧
        (∀ r ∈ newRows, r.userId = uid ∧ r.status = "pending" ∧
          r.matchedUserId ∈ knn.take 50 ∧
          ¬MatchDiscovery.PairMem store uid r.matchedUserId) ∧
        (∀ res,
          (MatchDiscovery.discover uid limit hasVector knn findUser score store).2 =
            .ok res → res.Pairwise (fun a b => b.rbsScore ≤ a.rbsScore)) := by
  intro uid limit hasVector knn findUser score store hlim
  unfold MatchDiscovery.discover
  cases hasVector with
  | false =>
    refine ⟨[], by simp, by simp, by simp, ?_⟩
    intro res h
    simp only [Bool.not_false, if_true] at h
    cases h
    exact List.Pairwise.nil
  | true =>
    rw [if_neg (by simp)]
    by_cases hk : knn.isEmpty = true
    · rw [if_pos hk]
      refine ⟨[], by simp, by simp, by simp, ?_⟩
      intro res h
      cases h
      exact List.Pairwise.nil
    · rw [if_neg hk]
      by_cases hu : findUser uid = true
      · rw [if_neg (by simp [hu])]
        obtain ⟨nr, e1, e2, e3, e4⟩ := discoverLoop_spec uid limit score findUser
          (knn.take 50) store [] (by simpa using hlim)
        cases hres : MatchDiscovery.discoverLoop uid limit score findUser
            (knn.take 50) store [] with
        | mk st2 r =>
          rw [hres] at e1
          refine ⟨nr, by simpa using e1, by simpa using e2, e3, ?_⟩
          intro res h
          simp only at h
          cases r with
          | error e => simp [Except.map] at h
          | ok l =>
            simp only [Except.map, Except.ok.injEq] at h
            rw [← h]
            exact sortByRbsDesc_sorted l
      · rw [if_pos (by simp [hu])]
        refine ⟨[], by simp, by simp, by simp, ?_⟩
        intro res h
        cases h
        exact List.Pairwise.nil

/-- Witness for `discover_bounded_dedup_sorted` at a concrete request. -/
theorem discover_bounded_dedup_sorted_witness :
    ∃ newRows : List MatchRow,
      (MatchDiscovery.discover "u" 1 false [] allUsers constScore []).1 =
        [] ++ newRows ∧
      newRows.length ≤ 1 ∧
      (∀ r ∈ newRows, r.userId = "u" ∧ r.status = "pending" ∧
        r.matchedUserId ∈ ([] : List String).take 50 ∧
        ¬MatchDiscovery.PairMem [] "u" r.matchedUserId) ∧
      (∀ res,
        (MatchDiscovery.discover "u" 1 false [] allUsers constScore []).2 =
          .ok res → res.Pairwise (fun a b => b.rbsScore ≤ a.rbsScore)) :=
  discover_bounded_dedup_sorted "u" 1 false [] allUsers constScore [] (by norm_num)

/-! ### Claim C4 — idempotence of re-running discovery -/

/-- C4 (amended): re-running discovery never duplicates an ordered pair —
every row the run appends is for a pair with no pre-existing row, and a
store with pairwise-distinct pairs stays pairwise-distinct — but a second
run may still create rows for candidates the first run never reached
(the first run stops at `limit`), so the Match set size is not unchanged in
general (see the counterexample). -/
theorem discover_never_duplicates_pairs :
    ∀ (uid : String) (limit : ℕ) (hasVector : Bool) (knn : List String)
      (findUser : String → Bool) (score : String → Except String RBS5)
      (store : List MatchRow),
      1 ≤ limit →
      MatchDiscovery.NodupPairs store →
      MatchDiscovery.NodupPairs
        (MatchDiscovery.discover uid limit hasVector knn findUser score store).1 ∧
      (∀ r ∈ (MatchDiscovery.discover uid limit hasVector knn findUser score store).1,
        r ∈ store ∨ ¬MatchDiscovery.PairMem store r.userId r.matchedUserId) := by
  intro uid limit hasVector knn findUser score store hlim hnd
  unfold MatchDiscovery.discover
  cases hasVector with
  | false =>
    exact ⟨by simpa using hnd, fun r hr => Or.inl (by simpa using hr)⟩
  | true =>
    rw [if_neg (by simp)]
    by_cases hk : knn.isEmpty = true
    · rw [if_pos hk]
      exact ⟨by simpa using hnd, fun r hr => Or.inl (by simpa using hr)⟩
    · rw [if_neg hk]
      by_cases hu : findUser uid = true
      · rw [if_neg (by simp [hu])]
        obtain ⟨nr, e1, e2, e3, e4⟩ := discoverLoop_spec uid limit score findUser
          (knn.take 50) store [] (by simpa using hlim)
        cases hres : MatchDiscovery.discoverLoop uid limit score findUser
            (knn.take 50) store [] with
        | mk st2 r =>
          rw [hres] at e1
          simp only at e1
          constructor
          · simp only
            rw [e1]
            exact e4 hnd
          · intro row hrow
            simp only at hrow
            rw [e1] at hrow
            rcases List.mem_append.mp hrow with hin | hin
            · exact Or.inl hin
            · obtain ⟨p1, -, -, p4⟩ := e3 row hin
              rw [p1]
              exact Or.inr p4
      · rw [if_pos (by simp [hu])]
        exact ⟨by simpa using hnd, fun r hr => Or.inl (by simpa using hr)⟩

/-- Witness for `discover_never_duplicates_pairs` at a concrete request. -/
theorem discover_never_duplicates_pairs_witness :
    MatchDiscovery.NodupPairs
      (MatchDiscovery.discover "u" 1 false [] allUsers constScore []).1 ∧
    (∀ r ∈ (MatchDiscovery.discover "u" 1 false [] allUsers constScore []).1,
      r ∈ ([] : List MatchRow) ∨
        ¬MatchDiscovery.PairMem [] r.userId r.matchedUserId) :=
  discover_never_duplicates_pairs "u" 1 false [] allUsers constScore [] (by norm_num)
    (by simp [MatchDiscovery.NodupPairs])

/-- C4 counterexample: user `"u"`, limit 1, unchanged candidate universe
`["a","b"]`.  The first run creates one row (for `"a"`) and stops at the
limit; the second run skips `"a"` but creates a new row for `"b"`: the
Match set grows from 1 to 2 rows, so the size is not unchanged. -/
theorem discover_rerun_grows_cex :
    (MatchDiscovery.discover "u" 1 true ["a", "b"] allUsers constScore []).1.length
      = 1 ∧
    (MatchDiscovery.discover "u" 1 true ["a", "b"] allUsers constScore
      (MatchDiscovery.discover "u" 1 true ["a", "b"] allUsers constScore []).1).1.length
      = 2 := by
  have htake : (["a", "b"] : List String).take 50 = ["a", "b"] := by decide
  have h1 : (MatchDiscovery.discover "u" 1 true ["a", "b"] allUsers constScore []).1 =
      [⟨"u", "a", 0.5, 0.5, 0.5, 0.5, 0.5, "pending"⟩] := by
    simp +decide [MatchDiscovery.discover, MatchDiscovery.discoverLoop,
      MatchDiscovery.findByUserPair, constScore, allUsers, htake]
  have h2 : (MatchDiscovery.discover "u" 1 true ["a", "b"] allUsers constScore
      [(⟨"u", "a", 0.5, 0.5, 0.5, 0.5, 0.5, "pending"⟩ : MatchRow)]).1 =
      [⟨"u", "a", 0.5, 0.5, 0.5, 0.5, 0.5, "pending"⟩,
       ⟨"u", "b", 0.5, 0.5, 0.5, 0.5, 0.5, "pending"⟩] := by
    simp +decide [MatchDiscovery.discover, MatchDiscovery.discoverLoop,
      MatchDiscovery.findByUserPair, constScore, allUsers, htake]
  rw [h1, h2]
  simp

/-! ### Claim C5 — a scoring failure aborts the whole discovery run -/

/-- C5 (amended): the discover route has no per-candidate exception
handling — when the loop reaches a candidate (no existing row, user record
present) whose scoring fails, the whole run stops immediately with that
error: no later candidate is scored or persisted, and the rows created
before the failure are the only ones kept. -/
theorem discoverLoop_error_aborts :
    ∀ (uid : String) (limit : ℕ) (score : String → Except String RBS5)
      (findUser : String → Bool) (store : List MatchRow) (acc : List ScoredMatch)
      (c : String) (rest : List String) (e : String),
      MatchDiscovery.findByUserPair store uid c = false →
      findUser c = true →
      score c = .error e →
      MatchDiscovery.discoverLoop uid limit score findUser (c :: rest) store acc =
        (store, .error e) := by
  intro uid limit score findUser store acc c rest e h1 h2 h3
  unfold MatchDiscovery.discoverLoop
  rw [if_neg (by simp [h1])]
  rw [if_neg (by simp [h2])]
  simp only [h3]

/-- Witness for `discoverLoop_error_aborts`: with candidates `["a", "b"]`
and a scorer failing on `"a"`, the loop aborts before reaching `"b"`. -/
theorem discoverLoop_error_aborts_witness :
    MatchDiscovery.discoverLoop "u" 2 failAScore allUsers ["a", "b"] [] [] =
      ([], .error "boom") :=
  discoverLoop_error_aborts "u" 2 failAScore allUsers [] [] "a" ["b"] "boom"
    rfl rfl (by simp [failAScore])

/-- C5 counterexample: with candidates `["a", "b"]` where scoring `"a"`
fails and `"b"` would succeed, the run returns the error and produces no
result for `"b"` (and persists nothing), contradicting "the failed
candidate is isolated and skipped, the loop continues". -/
theorem discover_error_discards_batch_cex :
    (MatchDiscovery.discover "u" 2 true ["a", "b"] allUsers failAScore []).2 =
      .error "boom" ∧
    (MatchDiscovery.discover "u" 2 true ["a", "b"] allUsers failAScore []).1 = [] := by
  have htake : (["a", "b"] : List String).take 50 = ["a", "b"] := by decide
  constructor <;>
    simp +decide [MatchDiscovery.discover, MatchDiscovery.discoverLoop,
      MatchDiscovery.findByUserPair, failAScore, allUsers, htake, Except.map]
